import Mathlib

/-!
Verification development for the GetBack2Werk voice check-in agent.

This file gives a shallow embedding, in Lean 4, of the session-lifecycle and
tool-dispatch core of the repository:

 - the Tool Dispatcher (src/api_manager.py, class ToolHandler),
 - the two provider adapters (src/openai_manager.py, src/gemini_manager.py),
 - the conversation log (src/conversation_manager.py and the duplicated
   add_to_history in src/voice_check_agent.py),
 - the check-in orchestrator (src/voice_check_agent.py: perform_check_in_cycle,
   disconnect, check_in_timer, start).

Python dictionaries are modelled as association lists, awaited coroutines as
sequential state-passing functions, raised exceptions as an Except monad (or a
result type carrying the state at the raise point), and the observable I/O of
each operation (network sends, console banners, sleeps) as explicit event
traces.  Thread interleaving for the timer is modelled as an explicit
scheduler over per-thread program counters.
-/

namespace GetBack2Werk

/-- Lookup with default, modelling Python dict.get(key, default) over an
association list. -/
def lookupD (m : List (String × String)) (k d : String) : String :=
  match m.find? (fun p => p.fst == k) with
  | some p => p.snd
  | none => d

/-! ## Tool Dispatcher (src/api_manager.py, class ToolHandler) -/

/-- One tool call as delivered to ToolHandler.handle_function_call:
a dict with name, arguments and an optional call_id
(the code reads tool_call.get with the function name as default). -/
structure ToolCall where
  name : String
  arguments : List (String × String)
  call_id : Option String
  deriving Repr, DecidableEq

/-- Effective call id: tool_call.get of call_id with function_name default
(api_manager.py line 53). -/
def ToolCall.cid (tc : ToolCall) : String :=
  tc.call_id.getD tc.name

/-- Result payload of one tool call.  success m models the dict with
status success and message m; failure m models the dict whose error
field is m. -/
inductive ToolOutcome where
  | success (message : String)
  | failure (message : String)
  deriving Repr, DecidableEq

/-- One entry of the results list built by handle_function_call. -/
structure ToolResult where
  name : String
  call_id : String
  result : ToolOutcome
  deriving Repr, DecidableEq

/-- Console notification printed by ToolHandler._sound_alarm, keyed by
urgency. -/
inductive Banner where
  | urgentBanner (reason : String)
  | attentionBanner (reason : String)
  | gentleReminder (reason : String)
  deriving Repr, DecidableEq

/-- ToolHandler._sound_alarm (api_manager.py lines 148-159): high yields the
high-priority banner, medium the attention banner, any other urgency the
gentle reminder. -/
def sound_alarm (reason urgency : String) : Banner :=
  if urgency == "high" then .urgentBanner reason
  else if urgency == "medium" then .attentionBanner reason
  else .gentleReminder reason

/-- Orchestration flags of the agent that the dispatcher mutates
(voice_agent.should_disconnect, .alarm_triggered, .disconnect_reason). -/
structure AgentFlags where
  should_disconnect : Bool
  alarm_triggered : Bool
  disconnect_reason : Option String
  deriving Repr, DecidableEq

/-- Observable actions performed by the dispatcher, in program order. -/
inductive DispatchEvent where
  | sendToolResponse (results : List ToolResult)
  | notify (b : Banner)
  | graceSleep (seconds : Nat)
  | disconnectAgent
  deriving Repr, DecidableEq

/-- ToolHandler._handle_disconnect_tool (api_manager.py lines 105-129):
sets should_disconnect, records the reason, sends the single success
ToolResult for this call, sleeps 10 seconds, then disconnects. -/
def handle_disconnect_tool (st : AgentFlags) (args : List (String × String))
    (cid : String) : AgentFlags × List DispatchEvent :=
  let reason := lookupD args "reason" "Check-in completed successfully"
  ({ st with
      should_disconnect := true
      disconnect_reason := some ("tool_disconnect: " ++ reason) },
    [ .sendToolResponse [⟨"Disconnect_Socket", cid,
        .success "Socket will be disconnected"⟩],
      .graceSleep 10,
      .disconnectAgent ])

/-- ToolHandler._handle_alarm_tool (api_manager.py lines 131-146): sets
alarm_triggered, prints the banner, and returns the success result. -/
def handle_alarm_tool (st : AgentFlags) (args : List (String × String)) :
    AgentFlags × Banner × ToolOutcome :=
  let reason := lookupD args "reason" "User needs attention"
  let urgency := lookupD args "urgency" "medium"
  ({ st with alarm_triggered := true },
    sound_alarm reason urgency,
    .success ("Alarm sounded: " ++ reason))

/-- Error result appended for an unknown tool name
(api_manager.py lines 78-85). -/
def unknown_tool_result (tc : ToolCall) : ToolResult :=
  ⟨tc.name, tc.cid, .failure ("Unknown function: " ++ tc.name)⟩

/-- Loop body of ToolHandler.handle_function_call (api_manager.py lines
41-103).  acc carries the results list built so far (in reverse).  On
Disconnect_Socket the function returns at once, discarding acc, exactly as
the Python return on line 68 does; after the loop the accumulated results
are sent in one batch when nonempty. -/
def handle_calls_go (st : AgentFlags) (acc : List ToolResult) :
    List ToolCall → AgentFlags × List DispatchEvent
  | [] =>
      if acc.isEmpty then (st, [])
      else (st, [.sendToolResponse acc.reverse])
  | tc :: rest =>
      if tc.name == "Disconnect_Socket" then
        handle_disconnect_tool st tc.arguments tc.cid
      else if tc.name == "Sound_Alarm" then
        let t := handle_alarm_tool st tc.arguments
        let r := handle_calls_go t.1 (⟨tc.name, tc.cid, t.2.2⟩ :: acc) rest
        (r.1, .notify t.2.1 :: r.2)
      else
        handle_calls_go st (unknown_tool_result tc :: acc) rest

/-- ToolHandler.handle_function_call on a batch of tool calls, from the
agent flags st. -/
def handle_function_call (st : AgentFlags) (calls : List ToolCall) :
    AgentFlags × List DispatchEvent :=
  handle_calls_go st [] calls

/-! ## Provider adapters (src/openai_manager.py, src/gemini_manager.py) -/

/-- Python exceptions that the adapter layer can raise.  attributeError
models calling a method on a None attribute (for example
self.websocket.send while self.websocket is None); jsonDecodeError models
json.loads failing on a malformed frame; keyboardInterrupt models the
deliberate raise KeyboardInterrupt in gemini_manager.py; cancelledError
models asyncio.CancelledError re-raised on task cancellation. -/
inductive PyError where
  | attributeError (detail : String)
  | jsonDecodeError
  | keyboardInterrupt (detail : String)
  | cancelledError
  deriving Repr, DecidableEq

/-- Metadata value of an APIMessage (Python dict values here are strings or
booleans). -/
inductive MetaVal where
  | str (s : String)
  | bool (b : Bool)
  | noneVal
  deriving Repr, DecidableEq

/-- Normalized inbound message (api_manager_base.py, class APIMessage).
Audio payloads are kept abstract as the decoded byte string. -/
structure APIMessage where
  message_type : String
  content : Option String
  audio_data : Option String
  tool_calls : Option (List ToolCall)
  metadata : List (String × MetaVal)
  deriving Repr, DecidableEq

/-- Microphone chunk, as a list of signed 16-bit samples. -/
abbrev AudioChunk := List Int

/-- Connection state of OpenAIRealtimeManager: the websocket handle (None
when disconnected), the cached session token, and the is_connected flag
inherited from RealtimeAPIManager. -/
structure OpenAIState where
  websocket : Option Nat
  session_token : Option String
  is_connected : Bool
  deriving Repr, DecidableEq

/-- Events sent on the OpenAI websocket by the adapter's operations. -/
inductive OAISend where
  | audioAppend (audio : AudioChunk)
  | itemCreateText (text : String)
  | responseCreate
  | sessionUpdate
  | functionCallOutput (call_id : String) (output : ToolOutcome)
  | closeSocket
  deriving Repr, DecidableEq

/-- OpenAIRealtimeManager.send_audio (openai_manager.py lines 110-122):
guarded by the websocket presence check on line 112; a disconnected adapter
returns immediately without sending. -/
def openai_send_audio (st : OpenAIState) (audio : AudioChunk)
    (_source_sample_rate : Nat) : Except PyError (OpenAIState × List OAISend) :=
  match st.websocket with
  | none => .ok (st, [])
  | some _ => .ok (st, [.audioAppend audio])

/-- OpenAIRealtimeManager.send_text (openai_manager.py lines 124-144): logs
a warning when an image is supplied, then calls self.websocket.send twice
with no connection guard, so a disconnected adapter (websocket = None)
raises AttributeError. -/
def openai_send_text (st : OpenAIState) (text : String)
    (_image_data : Option String) : Except PyError (OpenAIState × List OAISend) :=
  match st.websocket with
  | none => .error (.attributeError "NoneType has no attribute send")
  | some _ => .ok (st, [.itemCreateText text, .responseCreate])

/-- OpenAIRealtimeManager.send_tool_response (openai_manager.py lines
154-165): a for loop over the responses with no connection guard; the send
in the loop body raises AttributeError when websocket is None and the list
is nonempty (an empty list never enters the loop body). -/
def openai_send_tool_response (st : OpenAIState) (rs : List ToolResult) :
    Except PyError (OpenAIState × List OAISend) :=
  match rs, st.websocket with
  | [], _ => .ok (st, [])
  | _ :: _, none => .error (.attributeError "NoneType has no attribute send")
  | rs, some _ =>
      .ok (st, rs.map (fun r => .functionCallOutput r.call_id r.result))

/-- OpenAIRealtimeManager.configure_session (openai_manager.py lines
82-108): one session.update send on the websocket, unguarded, so it fails
outside the Connected state. -/
def openai_configure_session (st : OpenAIState) :
    Except PyError (OpenAIState × List OAISend) :=
  match st.websocket with
  | none => .error (.attributeError "NoneType has no attribute send")
  | some _ => .ok (st, [.sessionUpdate])

/-- OpenAIRealtimeManager.disconnect (openai_manager.py lines 74-80):
closes and clears the handle when present, otherwise does nothing. -/
def openai_disconnect (st : OpenAIState) : OpenAIState × List OAISend :=
  match st.websocket with
  | none => (st, [])
  | some _ =>
      ({ st with websocket := none, is_connected := false }, [.closeSocket])

/-- One decoded OpenAI Realtime event, in the shapes that
_convert_openai_message reads (openai_manager.py lines 167-226).  The
function-call arguments are carried already parsed. -/
inductive OAIEvent where
  | audioDelta (delta : String)
  | audioTranscriptDone (transcript : String)
  | inputTranscriptionCompleted (transcript : String)
  | functionCallArgsDone (name : String) (arguments : List (String × String))
      (call_id : Option String)
  | errorEvent (body : String)
  | sessionCreated (session_id : Option String)
  | otherEvent (ty : String)
  deriving Repr, DecidableEq

/-- OpenAIRealtimeManager._convert_openai_message: maps each event type to
an APIMessage, or None for unhandled types and empty payloads. -/
def convert_openai_message : OAIEvent → Option APIMessage
  | .audioDelta d =>
      if d == "" then none
      else some ⟨"audio", none, some d, none,
        [("event_type", .str "response.audio.delta")]⟩
  | .audioTranscriptDone t =>
      if t == "" then none
      else some ⟨"text", some t, none, none,
        [("event_type", .str "response.audio_transcript.done"),
         ("is_assistant", .bool true)]⟩
  | .inputTranscriptionCompleted t =>
      if t == "" then none
      else some ⟨"text", some t, none, none,
        [("event_type", .str "conversation.item.input_audio_transcription.completed"),
         ("is_user", .bool true)]⟩
  | .functionCallArgsDone n args cid =>
      some ⟨"tool_call", none, none, some [⟨n, args, cid⟩],
        [("event_type", .str "response.function_call_arguments.done")]⟩
  | .errorEvent body =>
      some ⟨"error", some body, none, none, [("event_type", .str "error")]⟩
  | .sessionCreated sid =>
      some ⟨"session_update", none, none, none,
        [("event_type", .str "session.created"),
         ("session_id", match sid with | some s => .str s | none => .noneVal)]⟩
  | .otherEvent _ => none

/-- One raw frame received on the websocket: either it json-decodes to an
event, or json.loads raises on it. -/
inductive WireFrame where
  | decodable (e : OAIEvent)
  | malformed (raw : String)
  deriving Repr, DecidableEq

/-- OpenAIRealtimeManager.receive_messages (openai_manager.py lines
146-152) consuming a finite inbound frame sequence: yields the converted
messages in order; json.loads has no surrounding try, so the first
malformed frame raises json.JSONDecodeError out of the generator,
terminating the stream with the messages produced so far and no further
output. -/
def openai_receive_messages : List WireFrame → List APIMessage × Option PyError
  | [] => ([], none)
  | .malformed _ :: _ => ([], some .jsonDecodeError)
  | .decodable e :: rest =>
      let r := openai_receive_messages rest
      (match convert_openai_message e with
       | some m => m :: r.1
       | none => r.1, r.2)

/-- Whether a character list starts with another (helper for substring
tests). -/
def char_list_starts_with : List Char → List Char → Bool
  | _, [] => true
  | [], _ :: _ => false
  | h :: hs, n :: ns => h == n && char_list_starts_with hs ns

/-- Whether a character list has ns as a contiguous sublist (helper for
Python's in operator on strings). -/
def char_list_has_sub (ns : List Char) : List Char → Bool
  | [] => ns.isEmpty
  | h :: t => char_list_starts_with (h :: t) ns || char_list_has_sub ns t

/-- Python's needle in hay test on strings. -/
def str_contains (hay needle : String) : Bool :=
  char_list_has_sub needle.toList hay.toList

/-- Connection state of GeminiLiveManager: the live session object, the
async context manager that produced it, and the background receive task
(some done records whether the task has finished). -/
structure GeminiState where
  session : Option Nat
  session_context : Option Nat
  receive_task : Option Bool
  is_connected : Bool
  deriving Repr, DecidableEq

/-- Effects performed on the Gemini session by the adapter's operations.
The librosa resample itself is an external numeric routine; audioPcm
records the chunk it is applied to and the target rate. -/
inductive GemSend where
  | audioPcm (samples : AudioChunk) (rate : Nat)
  | clientText (text : String) (turn_complete : Bool)
  | realtimeImage
  | toolResponse (id name : String) (result : ToolOutcome)
  | cancelReceiveTask
  | exitSessionContext
  deriving Repr, DecidableEq

/-- Squared RMS of a chunk after the (/ 32768) normalization in
gemini_manager.py lines 120-123, in exact rational arithmetic. -/
def rms_sq (samples : AudioChunk) : ℚ :=
  (samples.map (fun s => ((s : ℚ) / 32768) ^ 2)).sum / samples.length

/-- The silence test audio_rms < 0.001 of gemini_manager.py line 124,
phrased on the squared RMS (both sides are nonnegative).  np.mean of an
empty chunk is nan, which compares false, so an empty chunk is not
treated as silent. -/
def gemini_is_silent (samples : AudioChunk) : Bool :=
  !samples.isEmpty && decide (rms_sq samples < 1 / 1000000)

/-- GeminiLiveManager.send_audio (gemini_manager.py lines 112-155): guarded
by the session presence check on line 114; near-silent chunks are dropped;
otherwise the (resampled) chunk is sent at 16 kHz. -/
def gemini_send_audio (st : GeminiState) (samples : AudioChunk)
    (_source_sample_rate : Nat) : Except PyError (GeminiState × List GemSend) :=
  match st.session with
  | none => .ok (st, [])
  | some _ =>
      if gemini_is_silent samples then .ok (st, [])
      else .ok (st, [.audioPcm samples 16000])

/-- GeminiLiveManager.send_text (gemini_manager.py lines 157-198): takes an
opportunistic screenshot when the text contains the trigger phrase and no
image was supplied (shot is the external capture result), then uses
self.session with no connection guard inside a try/except that re-raises
as KeyboardInterrupt — so a disconnected adapter raises instead of
no-opping. -/
def gemini_send_text (st : GeminiState) (text : String)
    (image_data : Option String) (shot : Option String) :
    Except PyError (GeminiState × List GemSend) :=
  let img := if image_data.isNone && str_contains text.toLower "check on me"
             then shot else image_data
  match st.session with
  | none => .error (.keyboardInterrupt "API Error in send_text")
  | some _ =>
      .ok (st, [.clientText text false] ++
        (match img with | some _ => [.realtimeImage] | none => []) ++
        [.clientText "" true])

/-- GeminiLiveManager.send_tool_response (gemini_manager.py lines 213-257):
guarded by the session presence check on line 215; sends one function
response per result, correlated by the call id. -/
def gemini_send_tool_response (st : GeminiState) (rs : List ToolResult) :
    Except PyError (GeminiState × List GemSend) :=
  match st.session with
  | none => .ok (st, [])
  | some _ => .ok (st, rs.map (fun r => .toolResponse r.call_id r.name r.result))

/-- GeminiLiveManager.disconnect (gemini_manager.py lines 60-79): cancels a
still-running receive task (leaving the attribute pointing at the now-done
task), exits the session context only when both the context and the
session are present, and clears is_connected. -/
def gemini_disconnect (st : GeminiState) : GeminiState × List GemSend :=
  let taskStep : Option Bool × List GemSend :=
    match st.receive_task with
    | some false => (some true, [.cancelReceiveTask])
    | x => (x, [])
  let ctxStep : Option Nat × Option Nat × List GemSend :=
    match st.session_context, st.session with
    | some _, some _ => (none, none, [.exitSessionContext])
    | c, s => (c, s, [])
  ({ st with
      receive_task := taskStep.1
      session_context := ctxStep.1
      session := ctxStep.2.1
      is_connected := false },
    taskStep.2 ++ ctxStep.2.2)

/-- One Gemini function call found in a model turn part. -/
structure GemFC where
  name : String
  args : List (String × String)
  id : Option String
  deriving Repr, DecidableEq

/-- One response object yielded by session.receive() in the Gemini receive
loop; each optional attribute can independently be populated. -/
structure GemResponse where
  rdata : Option String
  rtext : Option String
  model_turn : Option (List (Option GemFC))
  turn_complete : Bool
  setup_complete : Bool
  deriving Repr, DecidableEq

/-- Messages queued for one response by GeminiLiveManager._receive_loop
(gemini_manager.py lines 262-322), in the order the code checks the
attributes: audio data, then text, then function calls in the model
turn. -/
def gem_response_messages (r : GemResponse) : List APIMessage :=
  (match r.rdata with
   | some d =>
       if d == "" then []
       else [⟨"audio", none, some d, none, [("sample_rate", .str "24000")]⟩]
   | none => []) ++
  (match r.rtext with
   | some t =>
       if t == "" then []
       else [⟨"text", some t, none, none, [("is_assistant", .bool true)]⟩]
   | none => []) ++
  (match r.model_turn with
   | some parts => parts.filterMap (fun p => p.map (fun fc =>
       (⟨"tool_call", none, none,
         some [⟨fc.name, fc.args, some (fc.id.getD fc.name)⟩], []⟩ : APIMessage)))
   | none => [])

/-- How the Gemini receive loop's while-True ends: cancellation (the normal
end every cycle) or an exception with the given message. -/
inductive GemLoopEnd where
  | cancelled
  | failed (msg : String)
  deriving Repr, DecidableEq

/-- The transport-error test of gemini_manager.py lines 146 and 328:
keepalive ping timeout or ConnectionClosedError in str(e). -/
def gemini_recognized_lost (msg : String) : Bool :=
  str_contains msg "keepalive ping timeout" || str_contains msg "ConnectionClosedError"

/-- GeminiLiveManager._receive_loop over a finite run: the messages queued
for the processed responses, and how the loop ends (gemini_manager.py
lines 324-340).  CancelledError is re-raised; a recognized connection-loss
error queues exactly one error message and returns; any other exception is
re-raised as KeyboardInterrupt. -/
def gemini_receive_loop (resps : List GemResponse) (ending : GemLoopEnd) :
    List APIMessage × Option PyError :=
  let ms := (resps.map gem_response_messages).flatten
  match ending with
  | .cancelled => (ms, some .cancelledError)
  | .failed msg =>
      if gemini_recognized_lost msg then
        (ms ++ [⟨"error", some "Connection lost - WebSocket timeout",
          none, none, []⟩], none)
      else (ms, some (.keyboardInterrupt msg))

/-! ## Check-In Orchestrator (src/voice_check_agent.py) -/

/-- Resources held by VoiceCheckAgent that disconnect() touches; each field
is present (some) or None. -/
structure VCState where
  input_stream : Option Unit
  output_stream : Option Unit
  mic_record_file : Option Unit
  websocket : Option Unit
  deriving Repr, DecidableEq

/-- Fault injection for VoiceCheckAgent.disconnect: whether the close call
on each resource raises when it is attempted. -/
structure VCFaults where
  input_close_fails : Bool
  output_close_fails : Bool
  mic_close_fails : Bool
  ws_close_fails : Bool
  deriving Repr, DecidableEq

/-- Body of VoiceCheckAgent.disconnect (voice_check_agent.py lines 733-780)
before the outer except handler.  An error carries the state at the raise
point.  Closing the input or output stream has no local handler, so a
failure there propagates (leaving the field still set).  Closing the mic
recording file is wrapped in try/except/finally with the field cleared in
finally, so it never propagates.  Closing the websocket is wrapped in
try/except with the field cleared in finally, so it never propagates
either and the field always ends None. -/
def vc_disconnect_body (st0 : VCState) (f : VCFaults) :
    Except VCState VCState :=
  let s1r : Except VCState VCState :=
    match st0.input_stream with
    | some _ =>
        if f.input_close_fails then .error st0
        else .ok { st0 with input_stream := none }
    | none => .ok st0
  match s1r with
  | .error s => .error s
  | .ok s1 =>
    let s2r : Except VCState VCState :=
      match s1.output_stream with
      | some _ =>
          if f.output_close_fails then .error s1
          else .ok { s1 with output_stream := none }
      | none => .ok s1
    match s2r with
    | .error s => .error s
    | .ok s2 =>
      let s3 := { s2 with mic_record_file := none }
      .ok { s3 with websocket := none }

/-- VoiceCheckAgent.disconnect (voice_check_agent.py lines 731-785): the
whole body runs under try/except Exception whose handler sets
self.websocket = None, so the coroutine always returns normally. -/
def vc_disconnect (st : VCState) (f : VCFaults) : VCState :=
  match vc_disconnect_body st f with
  | .ok s => s
  | .error s => { s with websocket := none }

/-- One conversation turn (conversation_manager.py lines 18-22 and
voice_check_agent.py lines 609-613); the datetime.now timestamp is
supplied by the caller. -/
structure Turn where
  timestamp : Nat
  role : String
  content : String
  deriving Repr, DecidableEq

/-- add_to_history (conversation_manager.py lines 16-26, duplicated at
voice_check_agent.py lines 607-617): append, then keep only the last 500
entries when the bound is exceeded (Python slice [-500:]). -/
def add_to_history (h : List Turn) (t : Turn) : List Turn :=
  let h2 := h ++ [t]
  if 500 < h2.length then h2.drop (h2.length - 500) else h2

/-- Inbound Realtime events as discriminated by
VoiceCheckAgent.process_realtime_event (voice_check_agent.py lines
437-502), restricted to the fields that drive the conversation log. -/
inductive AgentEvent where
  | sessionCreated (id : String)
  | audioDelta (delta : String)
  | audioTranscriptDone
  | responseDone
  | textDone (text : String)
  | inputTranscriptionCompleted (transcript : String)
  | functionCallArgsDone (name arguments : String) (call_id : Option String)
  | errorEvent
  | otherEvent (ty : String)
  deriving Repr, DecidableEq

/-- Effect of one processed event on the conversation history:
response.text.done appends an assistant turn when the text is nonempty,
conversation.item.input_audio_transcription.completed appends a user turn
when the transcript is nonempty, and no other event touches the log. -/
def history_effect (now : Nat) (h : List Turn) : AgentEvent → List Turn
  | .textDone t => if t == "" then h else add_to_history h ⟨now, "assistant", t⟩
  | .inputTranscriptionCompleted t =>
      if t == "" then h else add_to_history h ⟨now, "user", t⟩
  | _ => h

/-- Observable steps of one check-in cycle
(VoiceCheckAgent.perform_check_in_cycle, voice_check_agent.py lines
663-729), in program order. -/
inductive CycleEvent where
  | resetFlags
  | screenshotCaptured
  | logScreenshotError
  | sessionCreated
  | connected
  | configured
  | audioSetup
  | greetingSent
  | loopsRun
  | logTimeout
  | cancelTasks
  | disconnectCall
  | logAlreadyDisconnected
  | logOutcome
  | logCycleError
  deriving Repr, DecidableEq

/-- Environment of one cycle: which awaited step raises, whether the
120-second ceiling fires, and whether the agent already disconnected
during the loops (EndSession grace path), leaving websocket None at
teardown. -/
structure CycleFaults where
  screenshot_fails : Bool
  create_fails : Bool
  connect_fails : Bool
  audio_setup_fails : Bool
  send_greeting_fails : Bool
  loops_time_out : Bool
  tool_disconnected : Bool
  deriving Repr, DecidableEq

/-- Body of perform_check_in_cycle inside its try block.  The screenshot
block has its own try/except, so its failure only logs.  connect_fails
covers connect_websocket, which also runs configure_session internally.
The asyncio.wait_for timeout is caught by the inner except
asyncio.TimeoutError and only logs.  An error carries the trace up to the
raise point. -/
def cycle_body (f : CycleFaults) : Except (List CycleEvent) (List CycleEvent) :=
  let tr := [CycleEvent.resetFlags]
  let tr := tr ++ (if f.screenshot_fails then [CycleEvent.logScreenshotError]
                   else [CycleEvent.screenshotCaptured])
  if f.create_fails then .error tr else
  let tr := tr ++ [CycleEvent.sessionCreated]
  if f.connect_fails then .error tr else
  let tr := tr ++ [CycleEvent.connected, CycleEvent.configured]
  if f.audio_setup_fails then .error tr else
  let tr := tr ++ [CycleEvent.audioSetup]
  if f.send_greeting_fails then .error tr else
  let tr := tr ++ [CycleEvent.greetingSent, CycleEvent.loopsRun]
  let tr := tr ++ (if f.loops_time_out then [CycleEvent.logTimeout] else [])
  let tr := tr ++ [CycleEvent.cancelTasks]
  let tr := tr ++ (if f.tool_disconnected then [CycleEvent.logAlreadyDisconnected]
                   else [CycleEvent.disconnectCall])
  .ok (tr ++ [CycleEvent.logOutcome])

/-- VoiceCheckAgent.perform_check_in_cycle: the try body under except
Exception, whose handler logs the error and awaits disconnect() once
(voice_check_agent.py lines 727-729); the coroutine therefore always
returns normally. -/
def perform_check_in_cycle (f : CycleFaults) : List CycleEvent :=
  match cycle_body f with
  | .ok tr => tr
  | .error tr => tr ++ [CycleEvent.logCycleError, CycleEvent.disconnectCall]

/-- Whether the cycle's try block raises (steps 2-9; the screenshot block
and the wait_for timeout are handled locally and do not count). -/
def cycle_failed (f : CycleFaults) : Bool :=
  f.create_fails || f.connect_fails || f.audio_setup_fails || f.send_greeting_fails

/-- VoiceCheckAgent.check_in_timer (voice_check_agent.py lines 787-800)
over a finite schedule of ticks: each tick runs one cycle under its own
try/except Exception, so a failed cycle never stops the loop and every
scheduled tick produces a completed cycle trace. -/
def check_in_timer_run : List CycleFaults → List (List CycleEvent)
  | [] => []
  | f :: rest => perform_check_in_cycle f :: check_in_timer_run rest

/-! ## Thread interleaving of the timer and the initial cycle
(voice_check_agent.py: start lines 802-830, check_in_timer lines
787-800) -/

/-- Program counter of the main thread running start(). -/
inductive MainPC where
  | mainStart
  | mainCycle
  | mainIdle
  deriving Repr, DecidableEq

/-- Program counter of the timer thread running check_in_timer(). -/
inductive TimerPC where
  | notSpawned
  | sleeping
  | checkFlag
  | timerCycle
  deriving Repr, DecidableEq

/-- Joint state of the two threads and the shared is_running flag. -/
structure SchedState where
  is_running : Bool
  main : MainPC
  timer : TimerPC
  deriving Repr, DecidableEq

/-- Atomic scheduler actions.  startAgent models start() setting
is_running, spawning the timer thread and entering the immediate cycle;
timerWakes models time.sleep returning; timerBeginsCycle models the
if self.is_running test on line 791 followed by run_until_complete of the
cycle — the only guard the code places on starting a timer cycle is the
is_running flag, there is no cycle-in-progress gate. -/
inductive SchedAction where
  | startAgent
  | mainCycleEnds
  | timerWakes
  | timerBeginsCycle
  | timerCycleEnds
  deriving Repr, DecidableEq

/-- One guarded step of the interleaving; none when the action is not
enabled in the given state. -/
def sched_step (s : SchedState) : SchedAction → Option SchedState
  | .startAgent =>
      match s.main, s.timer with
      | .mainStart, .notSpawned =>
          some { is_running := true, main := .mainCycle, timer := .sleeping }
      | _, _ => none
  | .mainCycleEnds =>
      match s.main with
      | .mainCycle => some { s with main := .mainIdle }
      | _ => none
  | .timerWakes =>
      match s.timer with
      | .sleeping => some { s with timer := .checkFlag }
      | _ => none
  | .timerBeginsCycle =>
      match s.timer with
      | .checkFlag =>
          if s.is_running then some { s with timer := .timerCycle } else none
      | _ => none
  | .timerCycleEnds =>
      match s.timer with
      | .timerCycle => some { s with timer := .sleeping }
      | _ => none

/-- Run a sequence of scheduler actions from a state; none as soon as an
action is not enabled. -/
def sched_run (s : SchedState) : List SchedAction → Option SchedState
  | [] => some s
  | a :: rest =>
      match sched_step s a with
      | some s' => sched_run s' rest
      | none => none

/-- Initial state: process not started, timer thread not spawned. -/
def sched_init : SchedState := ⟨false, .mainStart, .notSpawned⟩

/-! ## Theorems: Tool Dispatcher -/

lemma handle_calls_go_all_unknown (calls : List ToolCall) :
    ∀ (st : AgentFlags) (acc : List ToolResult), calls ≠ [] →
      (∀ c ∈ calls, c.name ≠ "Disconnect_Socket" ∧ c.name ≠ "Sound_Alarm") →
      handle_calls_go st acc calls =
        (st, [DispatchEvent.sendToolResponse
          (acc.reverse ++ calls.map unknown_tool_result)]) := by
  induction calls with
  | nil => intro st acc h _; exact absurd rfl h
  | cons c rest ih =>
    intro st acc _ hun
    have hc := hun c (by simp)
    have hd : (c.name == "Disconnect_Socket") = false :=
      beq_eq_false_iff_ne.mpr hc.1
    have hs : (c.name == "Sound_Alarm") = false :=
      beq_eq_false_iff_ne.mpr hc.2
    cases rest with
    | nil => simp [handle_calls_go, hd, hs]
    | cons c2 rest2 =>
      have hrec := ih st (unknown_tool_result c :: acc) (by simp)
        (fun x hx => hun x (by simp [hx]))
      simp only [handle_calls_go, hd, hs, Bool.false_eq_true, if_false,
        List.cons_append] at hrec ⊢
      rw [hrec]
      simp

lemma handle_calls_go_disconnect (dc : ToolCall)
    (hdc : dc.name = "Disconnect_Socket") (post : List ToolCall)
    (pre : List ToolCall) :
    ∀ (st : AgentFlags) (acc : List ToolResult),
      (∀ c ∈ pre, c.name ≠ "Disconnect_Socket") →
      ∃ preEvs : List DispatchEvent, ∃ st' : AgentFlags,
        handle_calls_go st acc (pre ++ dc :: post) =
          (st', preEvs ++
            [DispatchEvent.sendToolResponse [⟨"Disconnect_Socket", dc.cid,
              ToolOutcome.success "Socket will be disconnected"⟩],
             DispatchEvent.graceSleep 10,
             DispatchEvent.disconnectAgent]) ∧
        st'.should_disconnect = true ∧
        st'.disconnect_reason = some ("tool_disconnect: " ++
          lookupD dc.arguments "reason" "Check-in completed successfully") ∧
        (∀ e ∈ preEvs, ∃ b, e = DispatchEvent.notify b) ∧
        handle_calls_go st acc (pre ++ dc :: post) =
          handle_calls_go st acc (pre ++ [dc]) := by
  induction pre with
  | nil =>
    intro st acc _
    have hd : (dc.name == "Disconnect_Socket") = true := by simp [hdc]
    refine ⟨[], (handle_disconnect_tool st dc.arguments dc.cid).1,
      ?_, rfl, rfl, ?_, ?_⟩
    · simp [handle_calls_go, hd, handle_disconnect_tool]
    · intro e he
      simp at he
    · simp [handle_calls_go, hd]
  | cons c pre' ih =>
    intro st acc hpre
    have hc : c.name ≠ "Disconnect_Socket" := hpre c (by simp)
    have hd : (c.name == "Disconnect_Socket") = false :=
      beq_eq_false_iff_ne.mpr hc
    have hpre' : ∀ x ∈ pre', x.name ≠ "Disconnect_Socket" :=
      fun x hx => hpre x (by simp [hx])
    by_cases hs : c.name = "Sound_Alarm"
    · have hsb : (c.name == "Sound_Alarm") = true := by simp [hs]
      obtain ⟨preEvs', st', heq, h1, h2, h3, h4⟩ :=
        ih (handle_alarm_tool st c.arguments).1
          (⟨c.name, c.cid, (handle_alarm_tool st c.arguments).2.2⟩ :: acc) hpre'
      refine ⟨DispatchEvent.notify
        (handle_alarm_tool st c.arguments).2.1 :: preEvs', st', ?_, h1, h2, ?_, ?_⟩
      · simp only [List.cons_append, handle_calls_go, hd, hsb, if_true,
          Bool.false_eq_true, if_false, List.append_eq]
        rw [heq]
      · intro e he
        rcases List.mem_cons.mp he with h | h
        · exact ⟨_, h⟩
        · exact h3 e h
      · simp only [List.cons_append, handle_calls_go, hd, hsb, if_true,
          Bool.false_eq_true, if_false, List.append_eq]
        rw [h4]
    · have hsb : (c.name == "Sound_Alarm") = false :=
        beq_eq_false_iff_ne.mpr hs
      obtain ⟨preEvs', st', heq, h1, h2, h3, h4⟩ :=
        ih st (unknown_tool_result c :: acc) hpre'
      refine ⟨preEvs', st', ?_, h1, h2, h3, ?_⟩
      · simp only [List.cons_append, handle_calls_go, hd, hsb,
          Bool.false_eq_true, if_false, List.append_eq]
        exact heq
      · simp only [List.cons_append, handle_calls_go, hd, hsb,
          Bool.false_eq_true, if_false, List.append_eq]
        exact h4

/-- Claim C1: when the Tool Dispatcher processes a batch containing a
Disconnect_Socket (EndSession) call, it sets should_disconnect, records the
disconnect reason, sends exactly one success ToolResult carrying the same
call id before the 10-second grace sleep begins, then disconnects exactly
once, and returns without processing any later call of the batch (the
output does not depend on the calls after the Disconnect_Socket call; the
only events before the acknowledgement are alarm banners from earlier
calls). -/
theorem dispatcher_end_session (st : AgentFlags) (pre post : List ToolCall)
    (dc : ToolCall) (hdc : dc.name = "Disconnect_Socket")
    (hpre : ∀ c ∈ pre, c.name ≠ "Disconnect_Socket") :
    ∃ preEvs : List DispatchEvent, ∃ st' : AgentFlags,
      handle_function_call st (pre ++ dc :: post) =
        (st', preEvs ++
          [DispatchEvent.sendToolResponse [⟨"Disconnect_Socket", dc.cid,
            ToolOutcome.success "Socket will be disconnected"⟩],
           DispatchEvent.graceSleep 10,
           DispatchEvent.disconnectAgent]) ∧
      st'.should_disconnect = true ∧
      st'.disconnect_reason = some ("tool_disconnect: " ++
        lookupD dc.arguments "reason" "Check-in completed successfully") ∧
      (∀ e ∈ preEvs, ∃ b, e = DispatchEvent.notify b) ∧
      handle_function_call st (pre ++ dc :: post) =
        handle_function_call st (pre ++ [dc]) := by
  simpa [handle_function_call] using
    handle_calls_go_disconnect dc hdc post pre st [] hpre

/-- Witness for C1 at a concrete batch: an alarm call, then the disconnect
call, then a trailing alarm call that is never processed. -/
theorem dispatcher_end_session_witness :
    (handle_function_call ⟨false, false, none⟩
      ([⟨"Sound_Alarm", [("reason", "r"), ("urgency", "low")], none⟩] ++
        ⟨"Disconnect_Socket", [("reason", "done")], some "d1"⟩ ::
        [⟨"Sound_Alarm", [("reason", "skipped")], none⟩])).1.should_disconnect
      = true ∧
    handle_function_call ⟨false, false, none⟩
      ([⟨"Sound_Alarm", [("reason", "r"), ("urgency", "low")], none⟩] ++
        ⟨"Disconnect_Socket", [("reason", "done")], some "d1"⟩ ::
        [⟨"Sound_Alarm", [("reason", "skipped")], none⟩]) =
    handle_function_call ⟨false, false, none⟩
      ([⟨"Sound_Alarm", [("reason", "r"), ("urgency", "low")], none⟩] ++
        [⟨"Disconnect_Socket", [("reason", "done")], some "d1"⟩]) := by
  obtain ⟨preEvs, st', heq, h1, h2, h3, h4⟩ :=
    dispatcher_end_session ⟨false, false, none⟩
      [⟨"Sound_Alarm", [("reason", "r"), ("urgency", "low")], none⟩]
      [⟨"Sound_Alarm", [("reason", "skipped")], none⟩]
      ⟨"Disconnect_Socket", [("reason", "done")], some "d1"⟩
      rfl (by decide)
  exact ⟨by rw [heq]; exact h1, h4⟩

/-- Claim C2: a batch in which every tool call has an unknown name (neither
Disconnect_Socket nor Sound_Alarm) leaves the agent flags exactly unchanged
and produces one batch send whose entries are, in order, one error
ToolResult per call with message "Unknown function: name" — so every call
of the batch is processed and none fails the cycle. -/
theorem dispatcher_unknown_tool (st : AgentFlags) (calls : List ToolCall)
    (hne : calls ≠ [])
    (hun : ∀ c ∈ calls, c.name ≠ "Disconnect_Socket" ∧ c.name ≠ "Sound_Alarm") :
    handle_function_call st calls =
      (st, [DispatchEvent.sendToolResponse (calls.map (fun c =>
        ⟨c.name, c.cid, ToolOutcome.failure ("Unknown function: " ++ c.name)⟩))]) := by
  simpa [handle_function_call, unknown_tool_result] using
    handle_calls_go_all_unknown calls st [] hne hun

/-- Witness for C2 at the batch of unknown calls Foo and Bar. -/
theorem dispatcher_unknown_tool_witness :
    handle_function_call ⟨false, false, none⟩
        [⟨"Foo", [], none⟩, ⟨"Bar", [], some "b1"⟩] =
      (⟨false, false, none⟩,
        [DispatchEvent.sendToolResponse
          [⟨"Foo", "Foo", ToolOutcome.failure "Unknown function: Foo"⟩,
           ⟨"Bar", "b1", ToolOutcome.failure "Unknown function: Bar"⟩]]) := by
  have h := dispatcher_unknown_tool ⟨false, false, none⟩
      [⟨"Foo", [], none⟩, ⟨"Bar", [], some "b1"⟩] (by decide) (by decide)
  exact h.trans (by decide)

/-- Claim C9: a Sound_Alarm (RaiseAlert) call sets alarm_triggered whatever
the urgency is, leaves should_disconnect alone, emits the banner keyed by
urgency followed by a success ToolResult batch, where high selects the
urgent banner, medium the attention banner and any other urgency the gentle
reminder, and the three banners are pairwise distinct. -/
theorem dispatcher_raise_alert (st : AgentFlags)
    (args : List (String × String)) (cido : Option String) :
    (handle_function_call st [⟨"Sound_Alarm", args, cido⟩]).1.alarm_triggered
        = true ∧
    (handle_function_call st [⟨"Sound_Alarm", args, cido⟩]).1.should_disconnect
        = st.should_disconnect ∧
    (handle_function_call st [⟨"Sound_Alarm", args, cido⟩]).2 =
      [DispatchEvent.notify (sound_alarm (lookupD args "reason" "User needs attention")
          (lookupD args "urgency" "medium")),
       DispatchEvent.sendToolResponse [⟨"Sound_Alarm", cido.getD "Sound_Alarm",
         ToolOutcome.success ("Alarm sounded: " ++
           lookupD args "reason" "User needs attention")⟩]] ∧
    sound_alarm (lookupD args "reason" "User needs attention") "high" =
      Banner.urgentBanner (lookupD args "reason" "User needs attention") ∧
    sound_alarm (lookupD args "reason" "User needs attention") "medium" =
      Banner.attentionBanner (lookupD args "reason" "User needs attention") ∧
    (lookupD args "urgency" "medium" ≠ "high" →
      lookupD args "urgency" "medium" ≠ "medium" →
      sound_alarm (lookupD args "reason" "User needs attention")
          (lookupD args "urgency" "medium") =
        Banner.gentleReminder (lookupD args "reason" "User needs attention")) ∧
    Banner.urgentBanner (lookupD args "reason" "User needs attention") ≠
      Banner.attentionBanner (lookupD args "reason" "User needs attention") ∧
    Banner.urgentBanner (lookupD args "reason" "User needs attention") ≠
      Banner.gentleReminder (lookupD args "reason" "User needs attention") ∧
    Banner.attentionBanner (lookupD args "reason" "User needs attention") ≠
      Banner.gentleReminder (lookupD args "reason" "User needs attention") := by
  refine ⟨?_, ?_, ?_, ?_, ?_, ?_, ?_, ?_, ?_⟩
  · simp [handle_function_call, handle_calls_go, handle_alarm_tool]
  · simp [handle_function_call, handle_calls_go, handle_alarm_tool]
  · simp [handle_function_call, handle_calls_go, handle_alarm_tool, ToolCall.cid]
  · simp [sound_alarm]
  · simp [sound_alarm]
  · intro h1 h2
    simp [sound_alarm, beq_eq_false_iff_ne.mpr h1, beq_eq_false_iff_ne.mpr h2]
  · simp
  · simp
  · simp

/-- Witness for C9 at a concrete low-urgency alarm call, discharging the
gentle-reminder hypotheses. -/
theorem dispatcher_raise_alert_witness :
    (handle_function_call ⟨false, false, none⟩
      [⟨"Sound_Alarm", [("reason", "r"), ("urgency", "low")], some "c9"⟩]).1.alarm_triggered
      = true ∧
    sound_alarm (lookupD [("reason", "r"), ("urgency", "low")] "reason"
        "User needs attention")
      (lookupD [("reason", "r"), ("urgency", "low")] "urgency" "medium") =
      Banner.gentleReminder (lookupD [("reason", "r"), ("urgency", "low")]
        "reason" "User needs attention") := by
  obtain ⟨h1, h2, h3, h4, h5, h6, h7, h8, h9⟩ :=
    dispatcher_raise_alert ⟨false, false, none⟩
      [("reason", "r"), ("urgency", "low")] (some "c9")
  exact ⟨h1, h6 (by decide) (by decide)⟩

/-! ## Theorems: provider adapters -/

/-- Counterexample to C3 as stated: sendText invoked while the adapter is
not connected is not a no-op — the socket adapter raises AttributeError
(openai_manager.py line 138 sends on a None websocket) and the
managed-streaming adapter raises KeyboardInterrupt (gemini_manager.py
lines 167 and 198); the socket adapter's sendToolResponse on a nonempty
batch raises too. -/
theorem adapter_noop_counterexample :
    openai_send_text ⟨none, none, false⟩ "hello" none =
      .error (.attributeError "NoneType has no attribute send") ∧
    gemini_send_text ⟨none, none, none, false⟩ "hello" none none =
      .error (.keyboardInterrupt "API Error in send_text") ∧
    openai_send_tool_response ⟨none, none, false⟩
        [⟨"Sound_Alarm", "c1", .success "ok"⟩] =
      .error (.attributeError "NoneType has no attribute send") :=
  ⟨rfl, rfl, rfl⟩

/-- C3 amended: while the connection handle is absent, sendAudio is a
guarded no-op on both adapters and sendToolResponse is a guarded no-op on
the managed-streaming adapter, but sendText raises on both adapters, the
socket adapter's sendToolResponse raises on any nonempty batch, and the
socket adapter's configureSession fails as the claim says. -/
theorem adapter_disconnected_ops (o : OpenAIState) (g : GeminiState)
    (chunk : AudioChunk) (rate : Nat) (text : String)
    (img shot : Option String) (rs : List ToolResult)
    (ho : o.websocket = none) (hg : g.session = none) (hrs : rs ≠ []) :
    openai_send_audio o chunk rate = .ok (o, []) ∧
    gemini_send_audio g chunk rate = .ok (g, []) ∧
    gemini_send_tool_response g rs = .ok (g, []) ∧
    (∃ e, openai_send_text o text img = .error e) ∧
    (∃ e, openai_send_tool_response o rs = .error e) ∧
    (∃ e, gemini_send_text g text img shot = .error e) ∧
    (∃ e, openai_configure_session o = .error e) := by
  refine ⟨?_, ?_, ?_, ?_, ?_, ?_, ?_⟩
  · simp [openai_send_audio, ho]
  · simp [gemini_send_audio, hg]
  · simp [gemini_send_tool_response, hg]
  · exact ⟨.attributeError "NoneType has no attribute send",
      by simp [openai_send_text, ho]⟩
  · cases rs with
    | nil => exact absurd rfl hrs
    | cons r rs' => exact ⟨.attributeError "NoneType has no attribute send",
        by simp [openai_send_tool_response, ho]⟩
  · exact ⟨.keyboardInterrupt "API Error in send_text",
      by simp [gemini_send_text, hg]⟩
  · exact ⟨.attributeError "NoneType has no attribute send",
      by simp [openai_configure_session, ho]⟩

/-- Witness for the amended C3 at concrete disconnected adapter states. -/
theorem adapter_disconnected_ops_witness :
    openai_send_audio ⟨none, none, false⟩ [1, 2] 24000 =
      .ok (⟨none, none, false⟩, []) ∧
    gemini_send_audio ⟨none, none, none, false⟩ [1, 2] 24000 =
      .ok (⟨none, none, none, false⟩, []) ∧
    (∃ e, openai_send_text ⟨none, none, false⟩ "hi" none = .error e) := by
  obtain ⟨h1, h2, h3, h4, h5, h6, h7⟩ :=
    adapter_disconnected_ops ⟨none, none, false⟩ ⟨none, none, none, false⟩
      [1, 2] 24000 "hi" none none [⟨"Sound_Alarm", "c1", .success "ok"⟩]
      rfl rfl (by decide)
  exact ⟨h1, h2, h4⟩

lemma openai_receive_append_decodable (es : List OAIEvent)
    (rest : List WireFrame) :
    openai_receive_messages (es.map WireFrame.decodable ++ rest) =
      (es.filterMap convert_openai_message ++ (openai_receive_messages rest).1,
       (openai_receive_messages rest).2) := by
  induction es with
  | nil => simp
  | cons e es' ih =>
    simp only [List.map_cons, List.cons_append, openai_receive_messages,
      List.filterMap_cons]
    cases convert_openai_message e <;> simp [ih]

/-- Counterexample to C4 as stated: a decode error in the middle of the
receive stream does not yield one error-kind message — the socket
adapter's receive_messages has no try around json.loads, so the malformed
frame raises out of the generator with no message emitted, and the
managed-streaming receive loop re-raises an unrecognized mid-stream error
as KeyboardInterrupt with no error message queued. -/
theorem receive_decode_counterexample :
    openai_receive_messages [WireFrame.malformed "oops"] =
      ([], some PyError.jsonDecodeError) ∧
    gemini_receive_loop [] (.failed "boom") =
      ([], some (PyError.keyboardInterrupt "boom")) :=
  ⟨rfl, rfl⟩

/-- C4 amended: the socket adapter's stream converts provider error events
into error-kind messages but raises the json decode error at the first
malformed frame, ending the stream after the earlier messages; the
managed-streaming receive loop queues exactly one error-kind message and
returns only when the mid-stream failure is a recognized connection-loss
error, and raises KeyboardInterrupt on any other failure. -/
theorem receive_error_behavior (es : List OAIEvent) (raw : String)
    (resps : List GemResponse) (msg body : String) :
    openai_receive_messages
        (es.map WireFrame.decodable ++ [WireFrame.malformed raw]) =
      (es.filterMap convert_openai_message, some PyError.jsonDecodeError) ∧
    convert_openai_message (.errorEvent body) =
      some ⟨"error", some body, none, none, [("event_type", .str "error")]⟩ ∧
    (gemini_recognized_lost msg = true →
      gemini_receive_loop resps (.failed msg) =
        ((resps.map gem_response_messages).flatten ++
          [⟨"error", some "Connection lost - WebSocket timeout",
            none, none, []⟩], none)) ∧
    (gemini_recognized_lost msg = false →
      gemini_receive_loop resps (.failed msg) =
        ((resps.map gem_response_messages).flatten,
         some (PyError.keyboardInterrupt msg))) := by
  refine ⟨?_, rfl, ?_, ?_⟩
  · rw [openai_receive_append_decodable]
    simp [openai_receive_messages]
  · intro hrec
    simp [gemini_receive_loop, hrec]
  · intro hrec
    simp [gemini_receive_loop, hrec]

/-- Witness for the amended C4: one provider error event followed by a
malformed frame on the socket adapter, and a recognized keepalive loss on
the managed-streaming loop. -/
theorem receive_error_behavior_witness :
    openai_receive_messages
        ([OAIEvent.errorEvent "server"].map WireFrame.decodable ++
          [WireFrame.malformed "x"]) =
      ([⟨"error", some "server", none, none,
        [("event_type", MetaVal.str "error")]⟩],
       some PyError.jsonDecodeError) ∧
    gemini_receive_loop [] (.failed "keepalive ping timeout") =
      ([⟨"error", some "Connection lost - WebSocket timeout",
        none, none, []⟩], none) := by
  obtain ⟨h1, h2, h3, h4⟩ := receive_error_behavior [OAIEvent.errorEvent "server"]
    "x" [] "keepalive ping timeout" "server"
  refine ⟨h1.trans (by decide), (h3 (by decide)).trans (by simp)⟩

/-! ## Theorems: disconnect -/

lemma openai_disconnect_idem (o : OpenAIState) :
    openai_disconnect (openai_disconnect o).1 = ((openai_disconnect o).1, []) := by
  rcases o with ⟨w, tok, conn⟩
  cases w <;> rfl

lemma gemini_disconnect_idem (g : GeminiState) :
    gemini_disconnect (gemini_disconnect g).1 = ((gemini_disconnect g).1, []) := by
  rcases g with ⟨s, c, t, ic⟩
  cases s <;> cases c <;>
    (rcases t with _ | tb
     · rfl
     · cases tb <;> rfl)

lemma vc_disconnect_idem (v : VCState) (f : VCFaults) :
    vc_disconnect (vc_disconnect v f) f = vc_disconnect v f := by
  rcases v with ⟨i, ou, m, w⟩
  rcases f with ⟨fi, fo, fm, fw⟩
  cases i <;> cases ou <;> cases m <;> cases w <;>
    cases fi <;> cases fo <;> rfl

/-- Claim C8: disconnect is idempotent on all three disconnect routines:
on an already-disconnected state (no handle, no running receive task,
is_connected false) it is a no-op returning the state unchanged with no
effects, and a second call right after a first one changes nothing and
performs no further effect. -/
theorem disconnect_idempotent (o o2 : OpenAIState) (g g2 : GeminiState)
    (v v2 : VCState) (f f2 : VCFaults)
    (ho : o.websocket = none)
    (hg : g.session = none) (hgc : g.is_connected = false)
    (hgt : g.receive_task = none ∨ g.receive_task = some true)
    (hv : v = ⟨none, none, none, none⟩) :
    openai_disconnect o = (o, []) ∧
    gemini_disconnect g = (g, []) ∧
    vc_disconnect v f = v ∧
    openai_disconnect (openai_disconnect o2).1 = ((openai_disconnect o2).1, []) ∧
    gemini_disconnect (gemini_disconnect g2).1 = ((gemini_disconnect g2).1, []) ∧
    vc_disconnect (vc_disconnect v2 f2) f2 = vc_disconnect v2 f2 := by
  refine ⟨?_, ?_, ?_, openai_disconnect_idem o2, gemini_disconnect_idem g2,
    vc_disconnect_idem v2 f2⟩
  · simp [openai_disconnect, ho]
  · rcases g with ⟨s, c, t, ic⟩
    simp only at hg hgc
    subst hg hgc
    rcases hgt with h | h <;> simp only at h <;> subst h <;>
      cases c <;> rfl
  · subst hv
    rfl

/-- Witness for C8 at concrete states, including a Gemini state with a
leftover session context and a done receive task. -/
theorem disconnect_idempotent_witness :
    openai_disconnect ⟨none, some "tok", false⟩ = (⟨none, some "tok", false⟩, []) ∧
    gemini_disconnect ⟨none, some 7, some true, false⟩ =
      (⟨none, some 7, some true, false⟩, []) ∧
    vc_disconnect ⟨none, none, none, none⟩ ⟨true, true, true, true⟩ =
      ⟨none, none, none, none⟩ := by
  obtain ⟨h1, h2, h3, _, _, _⟩ :=
    disconnect_idempotent ⟨none, some "tok", false⟩ ⟨some 1, none, true⟩
      ⟨none, some 7, some true, false⟩ ⟨some 2, some 3, some false, true⟩
      ⟨none, none, none, none⟩ ⟨some (), some (), some (), some ()⟩
      ⟨true, true, true, true⟩ ⟨false, false, false, false⟩
      rfl rfl rfl (Or.inr rfl) rfl
  exact ⟨h1, h2, h3⟩

/-- Claim C10: VoiceCheckAgent.disconnect never lets an exception escape
(vc_disconnect is the total catch-wrapped body, so it returns a state for
every input) and, for every starting state and every combination of
failing close calls, the websocket field is None when it returns. -/
theorem vc_disconnect_websocket_none (st : VCState) (f : VCFaults) :
    (vc_disconnect st f).websocket = none := by
  rcases st with ⟨i, ou, m, w⟩
  rcases f with ⟨fi, fo, fm, fw⟩
  cases i <;> cases ou <;> cases fi <;> cases fo <;> rfl

/-! ## Theorems: conversation log -/

lemma add_to_history_length (h : List Turn) (t : Turn) :
    (add_to_history h t).length = min (h.length + 1) 500 := by
  simp only [add_to_history]
  split
  · rename_i hc
    simp only [List.length_append, List.length_cons, List.length_nil] at hc ⊢
    rw [List.length_drop]
    simp only [List.length_append, List.length_cons, List.length_nil]
    omega
  · rename_i hc
    simp only [List.length_append, List.length_cons, List.length_nil] at hc ⊢
    omega

lemma add_to_history_eq (h : List Turn) (t : Turn) (hb : h.length ≤ 500) :
    add_to_history h t = (h ++ [t]).drop (h.length + 1 - 500) := by
  have hlen : (h ++ [t]).length = h.length + 1 := by simp
  simp only [add_to_history]
  split
  · rw [hlen]
  · rename_i hc
    rw [hlen] at hc
    have h0 : h.length + 1 - 500 = 0 := by omega
    rw [h0, List.drop_zero]

lemma foldl_add_to_history (ts : List Turn) :
    ∀ h : List Turn, h.length ≤ 500 →
      List.foldl add_to_history h ts =
        (h ++ ts).drop (h.length + ts.length - 500) := by
  induction ts with
  | nil =>
    intro h hb
    have h0 : h.length - 500 = 0 := Nat.sub_eq_zero_of_le hb
    simp [h0]
  | cons t ts' ih =>
    intro h hb
    have hlen : (add_to_history h t).length ≤ 500 := by
      rw [add_to_history_length]; omega
    rw [List.foldl_cons, ih (add_to_history h t) hlen, add_to_history_length,
      add_to_history_eq h t hb]
    rw [← List.drop_append_of_le_length
      (show h.length + 1 - 500 ≤ (h ++ [t]).length by
        simp only [List.length_append, List.length_cons, List.length_nil]
        omega)]
    rw [List.drop_drop]
    have harr : (h ++ [t]) ++ ts' = h ++ t :: ts' := by simp
    rw [harr]
    have hidx : h.length + 1 - 500 + (min (h.length + 1) 500 + ts'.length - 500) =
        h.length + (t :: ts').length - 500 := by
      simp only [List.length_cons]
      omega
    rw [hidx]

lemma history_effect_msgs (now : Nat) :
    ∀ (msgs : List (Bool × String)), (∀ m ∈ msgs, m.2 ≠ "") →
      ∀ h : List Turn,
        List.foldl (fun acc e => history_effect now acc e) h
          (msgs.map (fun m => if m.1 then AgentEvent.textDone m.2
            else AgentEvent.inputTranscriptionCompleted m.2)) =
        List.foldl add_to_history h
          (msgs.map (fun m =>
            (⟨now, if m.1 then "assistant" else "user", m.2⟩ : Turn))) := by
  intro msgs
  induction msgs with
  | nil => intro _ h; rfl
  | cons m ms ih =>
    intro hne h
    have hm : (m.2 == "") = false :=
      beq_eq_false_iff_ne.mpr (hne m (by simp))
    have ih' := ih (fun x hx => hne x (by simp [hx]))
    have hstep :
        history_effect now h (if m.1 then AgentEvent.textDone m.2
          else AgentEvent.inputTranscriptionCompleted m.2) =
        add_to_history h ⟨now, if m.1 then "assistant" else "user", m.2⟩ := by
      cases hmb : m.1 <;> simp [history_effect, hm, hmb]
    simp only [List.map_cons, List.foldl_cons, hstep, ih']

/-- Claim C7: starting from an empty log, after any sequence of appends
the conversation log holds at most 500 turns and equals exactly the most
recent turns in insertion order (Python slice [-500:], FIFO eviction);
one append to a bounded log keeps the suffix shape; and a sequence of
inbound text messages with nonempty content appends exactly one turn per
message, role assistant for response.text.done and user for the input
transcription event, again trimmed FIFO at 500. -/
theorem conversation_log_bounded (ts : List Turn) (h : List Turn) (t : Turn)
    (now : Nat) (msgs : List (Bool × String))
    (hb : h.length ≤ 500) (hne : ∀ m ∈ msgs, m.2 ≠ "") :
    (List.foldl add_to_history [] ts).length ≤ 500 ∧
    List.foldl add_to_history [] ts = ts.drop (ts.length - 500) ∧
    (add_to_history h t).length = min (h.length + 1) 500 ∧
    add_to_history h t = (h ++ [t]).drop (h.length + 1 - 500) ∧
    List.foldl (fun acc e => history_effect now acc e) []
        (msgs.map (fun m => if m.1 then AgentEvent.textDone m.2
          else AgentEvent.inputTranscriptionCompleted m.2)) =
      (msgs.map (fun m =>
        (⟨now, if m.1 then "assistant" else "user", m.2⟩ : Turn))).drop
        (msgs.length - 500) := by
  have hmain := foldl_add_to_history ts [] (by simp)
  simp only [List.nil_append, List.length_nil, Nat.zero_add] at hmain
  refine ⟨?_, hmain, add_to_history_length h t, add_to_history_eq h t hb, ?_⟩
  · rw [hmain, List.length_drop]
    omega
  · rw [history_effect_msgs now msgs hne []]
    have h2 := foldl_add_to_history
      (msgs.map (fun m =>
        (⟨now, if m.1 then "assistant" else "user", m.2⟩ : Turn))) [] (by simp)
    simpa using h2

/-- Witness for C7 at a concrete log and two inbound text messages. -/
theorem conversation_log_bounded_witness :
    (List.foldl add_to_history [] [(⟨0, "user", "x"⟩ : Turn)]).length ≤ 500 ∧
    List.foldl (fun acc e => history_effect 2 acc e) []
        ([((true : Bool), "a"), ((false : Bool), "b")].map
          (fun m => if m.1 then AgentEvent.textDone m.2
            else AgentEvent.inputTranscriptionCompleted m.2)) =
      [⟨2, "assistant", "a"⟩, ⟨2, "user", "b"⟩] := by
  obtain ⟨h1, h2, h3, h4, h5⟩ :=
    conversation_log_bounded [⟨0, "user", "x"⟩] [] ⟨1, "assistant", "y"⟩ 2
      [(true, "a"), (false, "b")] (by decide) (by decide)
  exact ⟨h1, h5.trans (by decide)⟩

/-! ## Theorems: cycle error containment and timer continuation -/

/-- Claim C5: whichever of steps 2 to 9 raises (session creation,
connection with configuration, audio setup, greeting send), the cycle
catches it, logs the failure exactly once, attempts disconnect exactly
once as its final action, and returns normally (perform_check_in_cycle is
the total catch-wrapped body, so it yields a trace for every fault
pattern); a cycle whose try body does not raise never logs a cycle error;
and the timer loop completes one cycle per scheduled tick no matter which
cycles fail, so the next scheduled cycle always runs. -/
theorem cycle_error_containment (f : CycleFaults)
    (schedule : List CycleFaults) :
    (cycle_failed f = true →
      (perform_check_in_cycle f).count CycleEvent.logCycleError = 1 ∧
      (perform_check_in_cycle f).count CycleEvent.disconnectCall = 1 ∧
      (perform_check_in_cycle f).getLast? = some CycleEvent.disconnectCall) ∧
    (cycle_failed f = false →
      (perform_check_in_cycle f).count CycleEvent.logCycleError = 0) ∧
    (check_in_timer_run schedule).length = schedule.length := by
  refine ⟨?_, ?_, ?_⟩
  · rcases f with ⟨s, c1, c2, a, gr, l, t⟩
    cases s <;> cases c1 <;> cases c2 <;> cases a <;> cases gr <;>
      cases l <;> cases t <;> decide
  · rcases f with ⟨s, c1, c2, a, gr, l, t⟩
    cases s <;> cases c1 <;> cases c2 <;> cases a <;> cases gr <;>
      cases l <;> cases t <;> decide
  · induction schedule with
    | nil => rfl
    | cons f' rest ih => simp [check_in_timer_run, ih]

/-- Witness for C5: a cycle whose connect step raises. -/
theorem cycle_error_containment_witness :
    (perform_check_in_cycle ⟨false, false, true, false, false, false, false⟩).count
        CycleEvent.logCycleError = 1 ∧
    (perform_check_in_cycle ⟨false, false, true, false, false, false, false⟩).count
        CycleEvent.disconnectCall = 1 ∧
    (check_in_timer_run [⟨false, false, true, false, false, false, false⟩,
      ⟨false, false, false, false, false, false, false⟩]).length = 2 := by
  obtain ⟨h1, _, h3⟩ :=
    cycle_error_containment ⟨false, false, true, false, false, false, false⟩
      [⟨false, false, true, false, false, false, false⟩,
       ⟨false, false, false, false, false, false, false⟩]
  exact ⟨(h1 rfl).1, (h1 rfl).2.1, h3⟩

/-! ## Theorems: cycle overlap (timer thread vs initial cycle) -/

/-- Claim C6 evidence: the interleaving the code permits violates mutual
exclusion — from the initial state, start() enters the immediate cycle,
the timer thread's sleep elapses, and its only guard (is_running) passes,
so a timer-triggered cycle begins while the initial cycle is still
running; both threads are then inside a cycle at once.  Timer-triggered
cycles among themselves are serialized: while the timer thread is inside
a cycle, timerBeginsCycle is not enabled. -/
theorem timer_overlaps_initial_cycle :
    (∃ s : SchedState,
      sched_run sched_init
          [SchedAction.startAgent, SchedAction.timerWakes,
           SchedAction.timerBeginsCycle] = some s ∧
      s.main = MainPC.mainCycle ∧ s.timer = TimerPC.timerCycle) ∧
    (∀ s : SchedState, s.timer = TimerPC.timerCycle →
      sched_step s SchedAction.timerBeginsCycle = none) := by
  constructor
  · exact ⟨⟨true, .mainCycle, .timerCycle⟩, by decide, rfl, rfl⟩
  · intro s hs
    rcases s with ⟨r, m, t⟩
    cases t <;> simp_all [sched_step]

/-- Witness for the serialization clause of the overlap theorem at a
concrete state with the timer thread mid-cycle. -/
theorem timer_overlaps_initial_cycle_witness :
    sched_step ⟨true, MainPC.mainIdle, TimerPC.timerCycle⟩
      SchedAction.timerBeginsCycle = none :=
  timer_overlaps_initial_cycle.2 ⟨true, MainPC.mainIdle, TimerPC.timerCycle⟩ rfl

end GetBack2Werk
